import Mathlib

/-!
Shallow embedding of the resumable HTTP downloader.

The repository has two variants of the same logic:
* `src/main.py` — the CLI variant (`download_with_auto_resume` with known-size
  requirement: a zero / absent `Content-Length` makes the invocation return
  `False` before the retry loop starts);
* `src/下载器.py` — the interactive variant (same loop, but it tolerates an
  unknown size, has a ranged-GET fallback probe, and has an unconditional
  `break` after a completed stream).

File contents are modelled as lists of bytes (`List Nat`); a missing file is
`none`.  One iteration of the `while not success:` loop is a pure function of
the download state and one `NetEvent` describing what the network did during
that attempt (request failure, partial stream then failure, user interrupt,
or a complete stream).  The iteration result records, besides the successor
state, the observable actions of the iteration: whether `time.sleep` ran,
the `Range` header value sent, the file-open mode, whether `os.remove` ran,
the resume offset at request time and the offset after each streamed block.
-/

/-- On-disk content of the destination file; `none` = `os.path.exists` is false. -/
abbrev FileData := Option (List Nat)

/-- `check_file_integrity(file_path, expected_size)` — identical in
`src/main.py` lines 83–101 and `src/下载器.py` lines 98–121: the file must
exist, `os.path.getsize` must equal `expected_size`, and `f.read(1024)` must
return a non-empty header. -/
def check_file_integrity (file_data : FileData) (expected_size : Nat) : Bool :=
  match file_data with
  | none => false
  | some content =>
    if content.length = expected_size then
      if (content.take 1024).length = 0 then false else true
    else false

/-- The value of the `Range` header built before each request:
`headers = {'Range': f'bytes={resume_pos}-'}`. -/
def rangeHeaderValue (resume_pos : Nat) : String :=
  "bytes=" ++ toString resume_pos ++ "-"

/-- Total number of bytes in a list of streamed chunks. -/
def chunkLen (chunks : List (List Nat)) : Nat :=
  (chunks.map List.length).sum

/-- Result of `open(file_path, mode)` followed by writing all chunks:
`'ab'` (`append = true`) keeps the existing content, `'wb'` truncates. -/
def writeFile (file_data : FileData) (append : Bool) (chunks : List (List Nat)) : List Nat :=
  (if append then file_data.getD [] else []) ++ chunks.flatten

/-- The value of the in-memory `resume_pos` after each executed
`resume_pos += len(chunk)` inside the streaming loop, starting from `p`. -/
def offsetsAfterBlocks : Nat → List (List Nat) → List Nat
  | _, [] => []
  | p, c :: cs => (p + c.length) :: offsetsAfterBlocks (p + c.length) cs

/-- What the network / user does during one attempt (one loop iteration):
* `reqFail` — `session.get` (or `raise_for_status`) raises
  `requests.exceptions.RequestException`; the file is never opened;
* `streamFail chunks` — the file is opened, `chunks` are streamed and
  written, then `iter_content` raises a request exception;
* `interruptEarly` — `KeyboardInterrupt` inside the `try:` before the file
  is opened;
* `interruptStream chunks` — `chunks` are written, then `KeyboardInterrupt`;
* `ok chunks` — the whole response body `chunks` is streamed without error. -/
inductive NetEvent where
  | reqFail : NetEvent
  | streamFail : List (List Nat) → NetEvent
  | interruptEarly : NetEvent
  | interruptStream : List (List Nat) → NetEvent
  | ok : List (List Nat) → NetEvent
deriving DecidableEq

/-- The chunks streamed during the event (empty when no byte arrived). -/
def chunksOf : NetEvent → List (List Nat)
  | .streamFail chunks => chunks
  | .interruptStream chunks => chunks
  | .ok chunks => chunks
  | _ => []

/-- Whether the event reaches `open(file_path, mode)`. -/
def opensFile : NetEvent → Bool
  | .streamFail _ => true
  | .interruptStream _ => true
  | .ok _ => true
  | _ => false

/-- Mutable state of `download_with_auto_resume` across loop iterations. -/
structure DLState where
  fs : FileData
  resume_pos : Nat
  attempt_count : Nat
deriving DecidableEq

/-- How one loop iteration ends:
* `success` — `success = True; break` (the function then returns `True`);
* `retry` — the loop body falls through and the `while` iterates again;
* `cancelled` — the `except KeyboardInterrupt` handler runs `return False`;
* `exitNone` — the loop `break`s with `success` still `False`, so the
  function falls off its end and returns Python `None` (interactive variant
  only). -/
inductive IterOutcome where
  | success : IterOutcome
  | retry : IterOutcome
  | cancelled : IterOutcome
  | exitNone : IterOutcome
deriving DecidableEq

/-- Observable record of one iteration of the retry loop. -/
structure Iter where
  state : DLState
  outcome : IterOutcome
  slept : Bool
  request : Option String
  openedAppend : Option Bool
  deletedExisting : Bool
  startPos : Nat
  blockOffsets : List Nat
deriving DecidableEq

/-- Iteration that `break`s with `success = True` before any request. -/
def breakIter (fs1 : FileData) (pos1 ac : Nat) (deleted : Bool) : Iter :=
  { state := ⟨fs1, pos1, ac⟩
    outcome := .success
    slept := false
    request := none
    openedAppend := none
    deletedExisting := deleted
    startPos := pos1
    blockOffsets := [] }

/-- The file-stat phase of the CLI variant (`src/main.py` lines 181–196):
returns the file data, the recomputed `resume_pos`, whether the
already-complete branch set `success = True`, and whether `os.remove` ran.
On the already-complete branch `resume_pos` keeps its previous value. -/
def statPhaseCli (file_size : Nat) (st : DLState) :
    FileData × Nat × Bool × Bool :=
  match st.fs with
  | some content =>
    if file_size ≤ content.length then
      if check_file_integrity (some content) file_size then
        (some content, st.resume_pos, true, false)
      else
        (none, 0, false, true)
    else
      (some content, content.length, false, false)
  | none => (none, 0, false, false)

/-- The file-stat phase of the interactive variant (`src/下载器.py` lines
247–271).  With a known size (`file_size > 0`) it is the same as the CLI
variant; with `file_size = 0` (unknown size) any existing file is removed
unconditionally and `resume_pos` is reset to `0`. -/
def statPhaseInteractive (file_size : Nat) (st : DLState) :
    FileData × Nat × Bool × Bool :=
  match st.fs with
  | some content =>
    if 0 < file_size then
      if file_size ≤ content.length then
        if check_file_integrity (some content) file_size then
          (some content, st.resume_pos, true, false)
        else
          (none, 0, false, true)
      else
        (some content, content.length, false, false)
    else
      (none, 0, false, true)
  | none => (none, 0, false, false)

/-- The request / stream / verify part of one CLI iteration
(`src/main.py` lines 203–282), given the post-stat file data `fs1`,
resume position `pos1`, attempt counter `ac` and deletion flag.
The open mode is `'ab' if resume_pos > 0 else 'wb'`; after a complete
stream, `check_file_integrity` decides between `success = True; break`
and falling through to the next iteration — with no `time.sleep`, which
runs only in the two exception handlers. -/
def streamPhaseCli (file_size : Nat) (fs1 : FileData) (pos1 ac : Nat)
    (deleted : Bool) (ev : NetEvent) : Iter :=
  match ev with
  | .interruptEarly =>
    { state := ⟨fs1, pos1, ac⟩
      outcome := .cancelled
      slept := false
      request := none
      openedAppend := none
      deletedExisting := deleted
      startPos := pos1
      blockOffsets := [] }
  | .reqFail =>
    { state := ⟨fs1, pos1, ac⟩
      outcome := .retry
      slept := true
      request := some (rangeHeaderValue pos1)
      openedAppend := none
      deletedExisting := deleted
      startPos := pos1
      blockOffsets := [] }
  | .streamFail chunks =>
    { state := ⟨some (writeFile fs1 (decide (0 < pos1)) chunks), pos1 + chunkLen chunks, ac⟩
      outcome := .retry
      slept := true
      request := some (rangeHeaderValue pos1)
      openedAppend := some (decide (0 < pos1))
      deletedExisting := deleted
      startPos := pos1
      blockOffsets := offsetsAfterBlocks pos1 chunks }
  | .interruptStream chunks =>
    { state := ⟨some (writeFile fs1 (decide (0 < pos1)) chunks), pos1 + chunkLen chunks, ac⟩
      outcome := .cancelled
      slept := false
      request := some (rangeHeaderValue pos1)
      openedAppend := some (decide (0 < pos1))
      deletedExisting := deleted
      startPos := pos1
      blockOffsets := offsetsAfterBlocks pos1 chunks }
  | .ok chunks =>
    { state := ⟨some (writeFile fs1 (decide (0 < pos1)) chunks), pos1 + chunkLen chunks, ac⟩
      outcome :=
        if check_file_integrity (some (writeFile fs1 (decide (0 < pos1)) chunks)) file_size
        then .success else .retry
      slept := false
      request := some (rangeHeaderValue pos1)
      openedAppend := some (decide (0 < pos1))
      deletedExisting := deleted
      startPos := pos1
      blockOffsets := offsetsAfterBlocks pos1 chunks }

/-- The request / stream / verify part of one interactive iteration
(`src/下载器.py` lines 278–367).  Identical to the CLI variant except after
a complete stream: the `break` at line 334 is unconditional, so a failed
verification exits the loop with `success` still `False` (`exitNone`),
and with `file_size = 0` a completed stream counts as success. -/
def streamPhaseInteractive (file_size : Nat) (fs1 : FileData) (pos1 ac : Nat)
    (deleted : Bool) (ev : NetEvent) : Iter :=
  match ev with
  | .interruptEarly =>
    { state := ⟨fs1, pos1, ac⟩
      outcome := .cancelled
      slept := false
      request := none
      openedAppend := none
      deletedExisting := deleted
      startPos := pos1
      blockOffsets := [] }
  | .reqFail =>
    { state := ⟨fs1, pos1, ac⟩
      outcome := .retry
      slept := true
      request := some (rangeHeaderValue pos1)
      openedAppend := none
      deletedExisting := deleted
      startPos := pos1
      blockOffsets := [] }
  | .streamFail chunks =>
    { state := ⟨some (writeFile fs1 (decide (0 < pos1)) chunks), pos1 + chunkLen chunks, ac⟩
      outcome := .retry
      slept := true
      request := some (rangeHeaderValue pos1)
      openedAppend := some (decide (0 < pos1))
      deletedExisting := deleted
      startPos := pos1
      blockOffsets := offsetsAfterBlocks pos1 chunks }
  | .interruptStream chunks =>
    { state := ⟨some (writeFile fs1 (decide (0 < pos1)) chunks), pos1 + chunkLen chunks, ac⟩
      outcome := .cancelled
      slept := false
      request := some (rangeHeaderValue pos1)
      openedAppend := some (decide (0 < pos1))
      deletedExisting := deleted
      startPos := pos1
      blockOffsets := offsetsAfterBlocks pos1 chunks }
  | .ok chunks =>
    { state := ⟨some (writeFile fs1 (decide (0 < pos1)) chunks), pos1 + chunkLen chunks, ac⟩
      outcome :=
        if 0 < file_size then
          if check_file_integrity (some (writeFile fs1 (decide (0 < pos1)) chunks)) file_size
          then .success else .exitNone
        else .success
      slept := false
      request := some (rangeHeaderValue pos1)
      openedAppend := some (decide (0 < pos1))
      deletedExisting := deleted
      startPos := pos1
      blockOffsets := offsetsAfterBlocks pos1 chunks }

/-- Glue: after the stat phase, either of the two `success = True; break`
exits (already complete at line 184–187, or `resume_pos >= file_size` at
line 199–201 of `src/main.py`) or the request is issued. -/
def afterStatCli (file_size : Nat)
    (stat : FileData × Nat × Bool × Bool) (ac : Nat) (ev : NetEvent) : Iter :=
  match stat with
  | (fs1, pos1, complete, deleted) =>
    if complete then breakIter fs1 pos1 ac deleted
    else if file_size ≤ pos1 then breakIter fs1 pos1 ac deleted
    else streamPhaseCli file_size fs1 pos1 ac deleted ev

/-- Glue for the interactive variant; the skip check at `src/下载器.py`
line 274 is `file_size > 0 and resume_pos >= file_size`. -/
def afterStatInteractive (file_size : Nat)
    (stat : FileData × Nat × Bool × Bool) (ac : Nat) (ev : NetEvent) : Iter :=
  match stat with
  | (fs1, pos1, complete, deleted) =>
    if complete then breakIter fs1 pos1 ac deleted
    else if 0 < file_size ∧ file_size ≤ pos1 then breakIter fs1 pos1 ac deleted
    else streamPhaseInteractive file_size fs1 pos1 ac deleted ev

/-- One full iteration of the CLI retry loop (`src/main.py` lines 178–282). -/
def downloadIterCli (file_size : Nat) (st : DLState) (ev : NetEvent) : Iter :=
  afterStatCli file_size (statPhaseCli file_size st) (st.attempt_count + 1) ev

/-- One full iteration of the interactive retry loop
(`src/下载器.py` lines 243–367). -/
def downloadIterInteractive (file_size : Nat) (st : DLState) (ev : NetEvent) : Iter :=
  afterStatInteractive file_size (statPhaseInteractive file_size st)
    (st.attempt_count + 1) ev

/-- The Python value returned by the function when the loop ends with the
given iteration outcome: `True` after `success`, `False` from the
`KeyboardInterrupt` handler, and `None` (the function falls off its end,
`src/下载器.py` lines 369–373) when the loop exits without success. -/
def outcomeReturn : IterOutcome → Option Bool
  | .success => some true
  | .cancelled => some false
  | _ => none

/-- Result of running the retry loop against a finite schedule of network
events: either the function returned (`finished ret st`, where `ret = none`
models Python `None`), or the schedule ran out while the loop would keep
iterating (`pending`). -/
inductive RunResult where
  | finished : Option Bool → DLState → RunResult
  | pending : DLState → RunResult
deriving DecidableEq

/-- Run the retry loop, one event per iteration, until it stops retrying. -/
def runLoop (iter : DLState → NetEvent → Iter) :
    DLState → List NetEvent → RunResult
  | st, [] => .pending st
  | st, ev :: evs =>
    if (iter st ev).outcome = .retry then runLoop iter (iter st ev).state evs
    else .finished (outcomeReturn (iter st ev).outcome) (iter st ev).state

/-- The whole CLI retry loop with the function's return value. -/
def runDownloadCli (file_size : Nat) : DLState → List NetEvent → RunResult :=
  runLoop (downloadIterCli file_size)

/-- The whole interactive retry loop with the function's return value. -/
def runDownloadInteractive (file_size : Nat) : DLState → List NetEvent → RunResult :=
  runLoop (downloadIterInteractive file_size)

/-- The size-probe phase of the CLI variant (`src/main.py` lines 154–165),
assuming the HEAD request succeeded with a 2xx status.
`file_size = int(head_response.headers.get('Content-Length', 0))`; when it
is `0` the function prints and `return False` — modelled as `none`.
`some S` means the invocation proceeds to the retry loop with size `S`. -/
def probeCli (content_length : Option Nat) : Option Nat :=
  let file_size := content_length.getD 0
  if file_size = 0 then none else some file_size

/-- The characters of a string after its last `'/'` — the behaviour of
Python `content_range.split('/')[-1]`. -/
def afterLastSlash (s : List Char) : List Char :=
  (s.reverse.takeWhile (fun c => c ≠ '/')).reverse

/-- Decimal value of a digit string, the behaviour of Python `int` on a
string of digits. -/
def digitsToNat (s : List Char) : Nat :=
  s.foldl (fun acc c => acc * 10 + (c.toNat - 48)) 0

/-- `src/下载器.py` lines 196–201: `content_range` falsy (empty) yields
nothing; otherwise take `split('/')[-1]` and accept it when `isdigit()`. -/
def parseContentRangeTotal (content_range : List Char) : Option Nat :=
  if content_range = [] then none
  else
    let total_size := afterLastSlash content_range
    if total_size ≠ [] ∧ total_size.all Char.isDigit then
      some (digitsToNat total_size)
    else none

/-- What the fallback ranged GET (`src/下载器.py` lines 192–206, a GET with
header `Range: bytes=0-1023`) yields: an exception, or a response whose
`Content-Range` header is the given character list (empty when absent). -/
inductive ProbeFallback where
  | fail : ProbeFallback
  | ok : List Char → ProbeFallback
deriving DecidableEq

/-- The size-probe phase of the interactive variant (`src/下载器.py` lines
171–210), assuming the HEAD request succeeded with a 2xx status.  When the
declared size is `0` or absent it falls back to the partial ranged GET and
parses the total from `Content-Range`; on any failure the size stays `0`
(unknown) and the invocation still proceeds to the retry loop. -/
def probeInteractive (content_length : Option Nat) (fb : ProbeFallback) : Nat :=
  let file_size := content_length.getD 0
  if file_size = 0 then
    match fb with
    | .fail => 0
    | .ok content_range =>
      match parseContentRangeTotal content_range with
      | some n => n
      | none => 0
  else file_size

/-! ## Helper lemmas -/

theorem check_file_integrity_iff (file_data : FileData) (S : Nat) :
    check_file_integrity file_data S = true ↔
      ∃ c, file_data = some c ∧ c.length = S ∧ c ≠ [] := by
  cases file_data with
  | none => simp [check_file_integrity]
  | some c =>
    by_cases hlen : c.length = S
    · by_cases hc : c = []
      · subst hc
        simp only [check_file_integrity]
        simp [← hlen]
      · have hpos : 0 < c.length := List.length_pos.mpr hc
        have ht : ¬ (c.take 1024).length = 0 := by
          rw [List.length_take]
          omega
        simp [check_file_integrity, hlen, ht, hc]
        omega
    · have hno : ¬ ∃ c', (some c : FileData) = some c' ∧ c'.length = S ∧ c' ≠ [] := by
        rintro ⟨c', hc', h1, h2⟩
        rw [Option.some.injEq] at hc'
        subst hc'
        exact hlen h1
      simp [check_file_integrity, hlen, hno]

theorem statPhaseCli_missing (S : Nat) (st : DLState) (h : st.fs = none) :
    statPhaseCli S st = (none, 0, false, false) := by
  simp [statPhaseCli, h]

theorem statPhaseCli_resume (S : Nat) (st : DLState) (c : List Nat)
    (h : st.fs = some c) (hlt : c.length < S) :
    statPhaseCli S st = (some c, c.length, false, false) := by
  simp [statPhaseCli, h, Nat.not_le.mpr hlt]

theorem statPhaseCli_complete (S : Nat) (st : DLState) (c : List Nat)
    (h : st.fs = some c) (hok : check_file_integrity (some c) S = true) :
    statPhaseCli S st = (some c, st.resume_pos, true, false) := by
  obtain ⟨c', hc', hlen, hne⟩ := (check_file_integrity_iff (some c) S).mp hok
  rw [Option.some.injEq] at hc'
  subst hc'
  have hle : S ≤ c.length := by omega
  simp [statPhaseCli, h, hle, hok]

theorem statPhaseCli_corrupt (S : Nat) (st : DLState) (c : List Nat)
    (h : st.fs = some c) (hge : S ≤ c.length)
    (hbad : check_file_integrity (some c) S = false) :
    statPhaseCli S st = (none, 0, false, true) := by
  simp [statPhaseCli, h, hge, hbad]

theorem statPhaseInteractive_missing (S : Nat) (st : DLState) (h : st.fs = none) :
    statPhaseInteractive S st = (none, 0, false, false) := by
  simp [statPhaseInteractive, h]

theorem statPhaseInteractive_resume (S : Nat) (st : DLState) (c : List Nat)
    (h : st.fs = some c) (hlt : c.length < S) :
    statPhaseInteractive S st = (some c, c.length, false, false) := by
  have hS : 0 < S := by omega
  simp [statPhaseInteractive, h, hS, Nat.not_le.mpr hlt]

theorem statPhaseInteractive_complete (S : Nat) (st : DLState) (c : List Nat)
    (h : st.fs = some c) (hok : check_file_integrity (some c) S = true) :
    statPhaseInteractive S st = (some c, st.resume_pos, true, false) := by
  obtain ⟨c', hc', hlen, hne⟩ := (check_file_integrity_iff (some c) S).mp hok
  rw [Option.some.injEq] at hc'
  subst hc'
  have hS : 0 < S := by
    have := List.length_pos.mpr hne
    omega
  have hle : S ≤ c.length := by omega
  simp [statPhaseInteractive, h, hS, hle, hok]

theorem statPhaseInteractive_corrupt (S : Nat) (st : DLState) (c : List Nat)
    (h : st.fs = some c) (hS : 0 < S) (hge : S ≤ c.length)
    (hbad : check_file_integrity (some c) S = false) :
    statPhaseInteractive S st = (none, 0, false, true) := by
  simp [statPhaseInteractive, h, hS, hge, hbad]

theorem statPhaseInteractive_unknown (st : DLState) (c : List Nat)
    (h : st.fs = some c) :
    statPhaseInteractive 0 st = (none, 0, false, true) := by
  simp [statPhaseInteractive, h]

theorem downloadIterCli_break (S : Nat) (st : DLState) (ev : NetEvent)
    (fs1 : FileData) (pos1 : Nat) (d : Bool)
    (hstat : statPhaseCli S st = (fs1, pos1, true, d)) :
    downloadIterCli S st ev = breakIter fs1 pos1 (st.attempt_count + 1) d := by
  unfold downloadIterCli
  rw [hstat]
  simp [afterStatCli]

theorem downloadIterCli_stream (S : Nat) (st : DLState) (ev : NetEvent)
    (fs1 : FileData) (pos1 : Nat) (d : Bool)
    (hstat : statPhaseCli S st = (fs1, pos1, false, d)) (hlt : pos1 < S) :
    downloadIterCli S st ev =
      streamPhaseCli S fs1 pos1 (st.attempt_count + 1) d ev := by
  unfold downloadIterCli
  rw [hstat]
  simp [afterStatCli, Nat.not_le.mpr hlt]

theorem downloadIterInteractive_break (S : Nat) (st : DLState) (ev : NetEvent)
    (fs1 : FileData) (pos1 : Nat) (d : Bool)
    (hstat : statPhaseInteractive S st = (fs1, pos1, true, d)) :
    downloadIterInteractive S st ev = breakIter fs1 pos1 (st.attempt_count + 1) d := by
  unfold downloadIterInteractive
  rw [hstat]
  simp [afterStatInteractive]

theorem downloadIterInteractive_stream (S : Nat) (st : DLState) (ev : NetEvent)
    (fs1 : FileData) (pos1 : Nat) (d : Bool)
    (hstat : statPhaseInteractive S st = (fs1, pos1, false, d))
    (hno : ¬ (0 < S ∧ S ≤ pos1)) :
    downloadIterInteractive S st ev =
      streamPhaseInteractive S fs1 pos1 (st.attempt_count + 1) d ev := by
  unfold downloadIterInteractive
  rw [hstat]
  simp [afterStatInteractive, hno]

theorem writeFile_some (c : List Nat) (chunks : List (List Nat)) :
    writeFile (some c) (decide (0 < c.length)) chunks = c ++ chunks.flatten := by
  cases c with
  | nil => simp [writeFile]
  | cons a as => simp [writeFile]

theorem chunkLen_cons (c : List Nat) (cs : List (List Nat)) :
    chunkLen (c :: cs) = c.length + chunkLen cs := by
  simp [chunkLen]

theorem offsetsAfterBlocks_le (p : Nat) (chunks : List (List Nat)) :
    ∀ x ∈ offsetsAfterBlocks p chunks, x ≤ p + chunkLen chunks := by
  induction chunks generalizing p with
  | nil =>
    intro x hx
    simp [offsetsAfterBlocks] at hx
  | cons c cs ih =>
    intro x hx
    rw [chunkLen_cons]
    simp only [offsetsAfterBlocks, List.mem_cons] at hx
    rcases hx with rfl | hx
    · omega
    · have := ih (p + c.length) x hx
      omega

theorem runLoop_cons_stop (iter : DLState → NetEvent → Iter) (st : DLState)
    (ev : NetEvent) (evs : List NetEvent) (h : (iter st ev).outcome ≠ .retry) :
    runLoop iter st (ev :: evs) =
      .finished (outcomeReturn (iter st ev).outcome) (iter st ev).state := by
  simp [runLoop, h]

theorem runLoop_cons_retry (iter : DLState → NetEvent → Iter) (st : DLState)
    (ev : NetEvent) (evs : List NetEvent) (h : (iter st ev).outcome = .retry) :
    runLoop iter st (ev :: evs) = runLoop iter (iter st ev).state evs := by
  simp [runLoop, h]

/-! ## Claim theorems -/

/-- C8: for every file state and known expected size,
`check_file_integrity(path, expectedSize)` returns `false` when the path
does not exist, when the on-disk size differs from `expectedSize`, or when
reading the first 1024 bytes yields no content, and returns `true`
otherwise — i.e. it is `true` exactly when the file exists with length
`expectedSize` and non-empty content. -/
theorem c8_check_file_integrity_spec (file_data : FileData) (S : Nat) :
    check_file_integrity file_data S = true ↔
      ∃ c, file_data = some c ∧ c.length = S ∧ c ≠ [] :=
  check_file_integrity_iff file_data S

/-- C3: when the destination file already has size `S` and passes the
integrity check at the start of an iteration, both variants end the
iteration in terminal success, issue no network request in that iteration,
and the invocation returns `True`. -/
theorem c3_already_complete_success (S : Nat) (st : DLState) (c : List Nat)
    (ev : NetEvent) (evs : List NetEvent)
    (hfs : st.fs = some c) (_hsize : c.length = S)
    (hok : check_file_integrity (some c) S = true) :
    ((downloadIterCli S st ev).outcome = .success
      ∧ (downloadIterCli S st ev).request = none
      ∧ runDownloadCli S st (ev :: evs) =
          .finished (some true) (downloadIterCli S st ev).state)
    ∧ ((downloadIterInteractive S st ev).outcome = .success
      ∧ (downloadIterInteractive S st ev).request = none
      ∧ runDownloadInteractive S st (ev :: evs) =
          .finished (some true) (downloadIterInteractive S st ev).state) := by
  have h1 := downloadIterCli_break S st ev (some c) st.resume_pos false
    (statPhaseCli_complete S st c hfs hok)
  have h2 := downloadIterInteractive_break S st ev (some c) st.resume_pos false
    (statPhaseInteractive_complete S st c hfs hok)
  constructor
  · refine ⟨by rw [h1]; rfl, by rw [h1]; rfl, ?_⟩
    have hr := runLoop_cons_stop (downloadIterCli S) st ev evs (by rw [h1]; simp [breakIter])
    rw [runDownloadCli, hr, h1]
    simp [breakIter, outcomeReturn]
  · refine ⟨by rw [h2]; rfl, by rw [h2]; rfl, ?_⟩
    have hr := runLoop_cons_stop (downloadIterInteractive S) st ev evs
      (by rw [h2]; simp [breakIter])
    rw [runDownloadInteractive, hr, h2]
    simp [breakIter, outcomeReturn]

/-- C3 witness: a one-byte file matching expected size 1 makes the first
iteration a request-free success. -/
theorem c3_already_complete_success_witness :
    (downloadIterCli 1 ⟨some [1], 0, 0⟩ .reqFail).outcome = .success
    ∧ (downloadIterCli 1 ⟨some [1], 0, 0⟩ .reqFail).request = none := by
  have h := c3_already_complete_success 1 ⟨some [1], 0, 0⟩ [1] .reqFail []
    rfl rfl (by decide)
  exact ⟨h.1.1, h.1.2.1⟩

/-- C4: when the on-disk size is at least the known expected size but the
integrity check fails at the start of an iteration, both variants run
`os.remove`, reset the resume offset to `0`, and — within the same loop
iteration — issue the next request with `Range: bytes=0-` in create/truncate
mode; in the CLI variant the iteration never exits the loop in a
non-success state (its outcome is success, retry, or cancelled). -/
theorem c4_corrupt_delete_restart (S : Nat) (st : DLState) (c : List Nat)
    (ev : NetEvent)
    (hfs : st.fs = some c) (hge : S ≤ c.length) (hS : 0 < S)
    (hbad : check_file_integrity (some c) S = false) :
    ((downloadIterCli S st ev).deletedExisting = true
      ∧ (downloadIterCli S st ev).startPos = 0
      ∧ (ev ≠ .interruptEarly →
          (downloadIterCli S st ev).request = some (rangeHeaderValue 0))
      ∧ (opensFile ev = true →
          (downloadIterCli S st ev).openedAppend = some false)
      ∧ (downloadIterCli S st ev).outcome ≠ .exitNone)
    ∧ ((downloadIterInteractive S st ev).deletedExisting = true
      ∧ (downloadIterInteractive S st ev).startPos = 0
      ∧ (ev ≠ .interruptEarly →
          (downloadIterInteractive S st ev).request = some (rangeHeaderValue 0))
      ∧ (opensFile ev = true →
          (downloadIterInteractive S st ev).openedAppend = some false)) := by
  have h1 := downloadIterCli_stream S st ev none 0 true
    (statPhaseCli_corrupt S st c hfs hge hbad) hS
  have h2 := downloadIterInteractive_stream S st ev none 0 true
    (statPhaseInteractive_corrupt S st c hfs hS hge hbad) (by omega)
  rw [h1, h2]
  cases ev <;> simp [streamPhaseCli, streamPhaseInteractive, opensFile]
  split <;> simp

/-- C4 witness: a 2-byte file against expected size 1 is corrupt; the
iteration deletes it and restarts the transfer from offset 0. -/
theorem c4_corrupt_delete_restart_witness :
    (downloadIterCli 1 ⟨some [0, 0], 0, 0⟩ (.ok [[3]])).deletedExisting = true
    ∧ (downloadIterCli 1 ⟨some [0, 0], 0, 0⟩ (.ok [[3]])).request =
        some (rangeHeaderValue 0)
    ∧ (downloadIterCli 1 ⟨some [0, 0], 0, 0⟩ (.ok [[3]])).openedAppend = some false := by
  have h := c4_corrupt_delete_restart 1 ⟨some [0, 0], 0, 0⟩ [0, 0] (.ok [[3]])
    rfl (by decide) (by decide) (by decide)
  exact ⟨h.1.1, h.1.2.2.1 (by decide), h.1.2.2.2.1 (by decide)⟩

/-- C5: in the interactive variant with unknown expected size
(`file_size = 0`), any pre-existing destination file is removed
unconditionally at the start of every iteration, and the transfer starts
from offset 0 (`Range: bytes=0-`, create/truncate mode). -/
theorem c5_unknown_size_discard (st : DLState) (c : List Nat) (ev : NetEvent)
    (hfs : st.fs = some c) :
    (downloadIterInteractive 0 st ev).deletedExisting = true
    ∧ (downloadIterInteractive 0 st ev).startPos = 0
    ∧ (ev ≠ .interruptEarly →
        (downloadIterInteractive 0 st ev).request = some (rangeHeaderValue 0))
    ∧ (opensFile ev = true →
        (downloadIterInteractive 0 st ev).openedAppend = some false) := by
  have h := downloadIterInteractive_stream 0 st ev none 0 true
    (statPhaseInteractive_unknown st c hfs) (by omega)
  rw [h]
  cases ev <;> simp [streamPhaseInteractive, opensFile]

/-- C5 witness: with unknown size, a pre-existing one-byte file is discarded
and the attempt requests the whole resource from offset 0. -/
theorem c5_unknown_size_discard_witness :
    (downloadIterInteractive 0 ⟨some [4], 7, 0⟩ (.ok [[1]])).deletedExisting = true
    ∧ (downloadIterInteractive 0 ⟨some [4], 7, 0⟩ (.ok [[1]])).startPos = 0
    ∧ (downloadIterInteractive 0 ⟨some [4], 7, 0⟩ (.ok [[1]])).request =
        some (rangeHeaderValue 0) := by
  have h := c5_unknown_size_discard ⟨some [4], 7, 0⟩ [4] (.ok [[1]]) rfl
  exact ⟨h.1, h.2.1, h.2.2.1 (by decide)⟩

/-- C6: a user interrupt during an attempt on a partial file makes the
iteration end `cancelled` (never converted into a retry), deletes nothing,
keeps every previously persisted byte on disk (the old content is a prefix
of the resulting file), and makes the invocation return `False` — in both
variants. -/
theorem c6_interrupt_preserves_partial (S : Nat) (st : DLState) (c : List Nat)
    (chunks : List (List Nat)) (evs : List NetEvent)
    (hfs : st.fs = some c) (hpart : c.length < S) :
    ((downloadIterCli S st .interruptEarly).outcome = .cancelled
      ∧ (downloadIterCli S st .interruptEarly).state.fs = some c
      ∧ (downloadIterCli S st .interruptEarly).deletedExisting = false)
    ∧ ((downloadIterCli S st (.interruptStream chunks)).outcome = .cancelled
      ∧ (downloadIterCli S st (.interruptStream chunks)).state.fs =
          some (c ++ chunks.flatten)
      ∧ (downloadIterCli S st (.interruptStream chunks)).deletedExisting = false
      ∧ runDownloadCli S st (.interruptStream chunks :: evs) =
          .finished (some false)
            (downloadIterCli S st (.interruptStream chunks)).state)
    ∧ ((downloadIterInteractive S st (.interruptStream chunks)).outcome = .cancelled
      ∧ (downloadIterInteractive S st (.interruptStream chunks)).state.fs =
          some (c ++ chunks.flatten)
      ∧ runDownloadInteractive S st (.interruptStream chunks :: evs) =
          .finished (some false)
            (downloadIterInteractive S st (.interruptStream chunks)).state) := by
  have hstat := statPhaseCli_resume S st c hfs hpart
  have hstat2 := statPhaseInteractive_resume S st c hfs hpart
  have h1 := downloadIterCli_stream S st .interruptEarly (some c) c.length false
    hstat hpart
  have h2 := downloadIterCli_stream S st (.interruptStream chunks) (some c)
    c.length false hstat hpart
  have h3 := downloadIterInteractive_stream S st (.interruptStream chunks) (some c)
    c.length false hstat2 (by omega)
  refine ⟨⟨by rw [h1]; rfl, by rw [h1]; rfl, by rw [h1]; rfl⟩, ?_, ?_⟩
  · refine ⟨by rw [h2]; rfl, ?_, by rw [h2]; rfl, ?_⟩
    · rw [h2]
      simp only [streamPhaseCli]
      rw [writeFile_some]
    · have hr := runLoop_cons_stop (downloadIterCli S) st (.interruptStream chunks)
        evs (by rw [h2]; simp [streamPhaseCli])
      rw [runDownloadCli, hr, h2]
      simp [streamPhaseCli, outcomeReturn]
  · refine ⟨by rw [h3]; rfl, ?_, ?_⟩
    · rw [h3]
      simp only [streamPhaseInteractive]
      rw [writeFile_some]
    · have hr := runLoop_cons_stop (downloadIterInteractive S) st
        (.interruptStream chunks) evs (by rw [h3]; simp [streamPhaseInteractive])
      rw [runDownloadInteractive, hr, h3]
      simp [streamPhaseInteractive, outcomeReturn]

/-- C6 witness: interrupting mid-stream with one byte already on disk and
one streamed chunk returns a cancelled outcome with all bytes kept. -/
theorem c6_interrupt_preserves_partial_witness :
    (downloadIterCli 3 ⟨some [1], 0, 0⟩ (.interruptStream [[2]])).outcome = .cancelled
    ∧ (downloadIterCli 3 ⟨some [1], 0, 0⟩ (.interruptStream [[2]])).state.fs =
        some ([1] ++ ([[2]] : List (List Nat)).flatten)
    ∧ runDownloadCli 3 ⟨some [1], 0, 0⟩ [.interruptStream [[2]]] =
        .finished (some false)
          (downloadIterCli 3 ⟨some [1], 0, 0⟩ (.interruptStream [[2]])).state := by
  have h := c6_interrupt_preserves_partial 3 ⟨some [1], 0, 0⟩ [1] [[2]] []
    rfl (by decide)
  exact ⟨h.2.1.1, h.2.1.2.1, h.2.1.2.2.2⟩

/-- C2 counterexample: a partial file of size `k = 0` (claim range is
`0 ≤ k < S`) does get the request `Range: bytes=0-`, but the destination is
opened with mode `'wb'` (create/truncate), not append, because the source
picks `'ab'` only when `resume_pos > 0`. -/
theorem c2_resume_request_cex :
    (downloadIterCli 1 ⟨some [], 0, 0⟩ (.ok [[9]])).request =
        some (rangeHeaderValue 0)
    ∧ (downloadIterCli 1 ⟨some [], 0, 0⟩ (.ok [[9]])).openedAppend = some false
    ∧ ¬ (downloadIterCli 1 ⟨some [], 0, 0⟩ (.ok [[9]])).openedAppend = some true := by
  decide

/-- C2 amended: a partial file of size `k` with `0 ≤ k < S` makes the
attempt send exactly `Range: bytes=k-`; the destination is opened in append
mode when `k > 0` and in create/truncate mode when `k = 0` (destroying no
bytes, since the file is empty); in either case the previously persisted
bytes are a prefix of the file after streaming.  Both variants. -/
theorem c2_resume_request (S k : Nat) (st : DLState) (c : List Nat)
    (ev : NetEvent)
    (hfs : st.fs = some c) (hlen : c.length = k) (hk : k < S)
    (hev : ev ≠ .interruptEarly) :
    ((downloadIterCli S st ev).request = some (rangeHeaderValue k)
      ∧ (opensFile ev = true →
          (downloadIterCli S st ev).openedAppend = some (decide (0 < k)))
      ∧ (opensFile ev = true →
          (downloadIterCli S st ev).state.fs =
            some (c ++ (chunksOf ev).flatten)))
    ∧ ((downloadIterInteractive S st ev).request = some (rangeHeaderValue k)
      ∧ (opensFile ev = true →
          (downloadIterInteractive S st ev).openedAppend = some (decide (0 < k)))
      ∧ (opensFile ev = true →
          (downloadIterInteractive S st ev).state.fs =
            some (c ++ (chunksOf ev).flatten))) := by
  subst hlen
  have h1 := downloadIterCli_stream S st ev (some c) c.length false
    (statPhaseCli_resume S st c hfs hk) hk
  have h2 := downloadIterInteractive_stream S st ev (some c) c.length false
    (statPhaseInteractive_resume S st c hfs hk) (by omega)
  rw [h1, h2]
  cases ev <;>
    simp [streamPhaseCli, streamPhaseInteractive, opensFile, chunksOf,
      writeFile_some] at hev ⊢

/-- C2 witness: resuming a 1-byte partial file of a 3-byte resource sends
`Range: bytes=1-` and opens the file for append. -/
theorem c2_resume_request_witness :
    (downloadIterCli 3 ⟨some [5], 0, 0⟩ (.ok [[9]])).request =
        some (rangeHeaderValue 1)
    ∧ (downloadIterCli 3 ⟨some [5], 0, 0⟩ (.ok [[9]])).openedAppend = some true := by
  have h := c2_resume_request 3 1 ⟨some [5], 0, 0⟩ [5] (.ok [[9]])
    rfl rfl (by decide) (by decide)
  exact ⟨h.1.1, by have := h.1.2.1 (by decide); simpa using this⟩

/-- C1 counterexample: with expected size 2 and a completed stream of a
single byte, the CLI iteration fails verification and retries with
`slept = false` (no `time.sleep` runs on the failed-verification path, only
in the exception handlers), and the interactive loop terminates in a
non-success state (`exitNone`), its invocation returning Python `None`. -/
theorem c1_verify_retry_cex :
    (downloadIterCli 2 ⟨none, 0, 0⟩ (.ok [[7]])).outcome = .retry
    ∧ (downloadIterCli 2 ⟨none, 0, 0⟩ (.ok [[7]])).slept = false
    ∧ (downloadIterInteractive 2 ⟨none, 0, 0⟩ (.ok [[7]])).outcome = .exitNone := by
  decide

/-- C1 amended: for every iteration with a known expected size in which
Request&Stream completes, the engine runs the integrity check; if it passes
the outcome is terminal success.  If it fails, the CLI variant immediately
begins another attempt iteration without sleeping (`time.sleep` runs only in
the exception handlers, e.g. after a request failure), so its loop never
terminates in a non-success state on a failed verification; the interactive
variant instead exits its loop without success. -/
theorem c1_verify_then_retry (S : Nat) (st : DLState) (chunks : List (List Nat))
    (evs : List NetEvent) (fs1 : FileData) (pos1 : Nat) (d : Bool)
    (hstat : statPhaseCli S st = (fs1, pos1, false, d)) (hlt : pos1 < S) :
    (check_file_integrity (some (writeFile fs1 (decide (0 < pos1)) chunks)) S = true →
        (downloadIterCli S st (.ok chunks)).outcome = .success)
    ∧ (check_file_integrity (some (writeFile fs1 (decide (0 < pos1)) chunks)) S = false →
        (downloadIterCli S st (.ok chunks)).outcome = .retry
        ∧ (downloadIterCli S st (.ok chunks)).slept = false
        ∧ runDownloadCli S st (.ok chunks :: evs) =
            runDownloadCli S (downloadIterCli S st (.ok chunks)).state evs)
    ∧ (downloadIterCli S st .reqFail).slept = true
    ∧ (∀ fs2 pos2 d2,
        statPhaseInteractive S st = (fs2, pos2, false, d2) → pos2 < S →
        check_file_integrity (some (writeFile fs2 (decide (0 < pos2)) chunks)) S = false →
        (downloadIterInteractive S st (.ok chunks)).outcome = .exitNone
        ∧ runDownloadInteractive S st (.ok chunks :: evs) =
            .finished none (downloadIterInteractive S st (.ok chunks)).state) := by
  have hS : 0 < S := by omega
  have h1 := downloadIterCli_stream S st (.ok chunks) fs1 pos1 d hstat hlt
  have hrf := downloadIterCli_stream S st .reqFail fs1 pos1 d hstat hlt
  refine ⟨?_, ?_, by rw [hrf]; rfl, ?_⟩
  · intro hok
    rw [h1]
    simp [streamPhaseCli, hok]
  · intro hbad
    have ho : (downloadIterCli S st (.ok chunks)).outcome = .retry := by
      rw [h1]
      simp [streamPhaseCli, hbad]
    refine ⟨ho, by rw [h1]; rfl, ?_⟩
    exact runLoop_cons_retry (downloadIterCli S) st (.ok chunks) evs ho
  · intro fs2 pos2 d2 hstat2 hlt2 hbad2
    have h2 := downloadIterInteractive_stream S st (.ok chunks) fs2 pos2 d2 hstat2
      (by omega)
    have ho : (downloadIterInteractive S st (.ok chunks)).outcome = .exitNone := by
      rw [h2]
      simp [streamPhaseInteractive, hS, hbad2]
    refine ⟨ho, ?_⟩
    have hr := runLoop_cons_stop (downloadIterInteractive S) st (.ok chunks) evs
      (by rw [ho]; simp)
    rw [runDownloadInteractive, hr, ho]
    rfl

/-- C1 witness: at expected size 2, a completed one-byte stream fails
verification; the CLI iteration retries without sleeping and the
interactive iteration exits the loop without success. -/
theorem c1_verify_then_retry_witness :
    (downloadIterCli 2 ⟨none, 0, 0⟩ (.ok [[7]])).outcome = .retry
    ∧ (downloadIterCli 2 ⟨none, 0, 0⟩ (.ok [[7]])).slept = false
    ∧ (downloadIterCli 2 ⟨none, 0, 0⟩ .reqFail).slept = true
    ∧ (downloadIterInteractive 2 ⟨none, 0, 0⟩ (.ok [[7]])).outcome = .exitNone := by
  have h := c1_verify_then_retry 2 ⟨none, 0, 0⟩ [[7]] [] none 0 false
    (by decide) (by decide)
  refine ⟨(h.2.1 (by decide)).1, (h.2.1 (by decide)).2.1, h.2.2.1, ?_⟩
  exact (h.2.2.2 none 0 false (by decide) (by decide) (by decide)).1

/-- C9 counterexample: with expected size 1 and a server that answers the
`Range: bytes=0-` request with two one-byte blocks, the in-memory resume
offset reaches 2 after the second `resume_pos += len(chunk)` — the code
never clamps it, so the invariant "resume offset never exceeds expected
size" is violated mid-attempt. -/
theorem c9_offset_invariant_cex :
    (downloadIterCli 1 ⟨none, 0, 0⟩ (.ok [[5], [6]])).state.resume_pos = 2
    ∧ 2 ∈ (downloadIterCli 1 ⟨none, 0, 0⟩ (.ok [[5], [6]])).blockOffsets
    ∧ ¬ ∀ x ∈ (downloadIterCli 1 ⟨none, 0, 0⟩ (.ok [[5], [6]])).blockOffsets,
        x ≤ 1 := by
  decide

/-- C9 amended: at the moment any request is issued, the resume offset
(re-derived from the on-disk size) is strictly below the expected size; and
after every streamed block the offset stays at most the expected size
provided the server delivers no more than the requested remaining bytes.
Without that compliance assumption the offset can exceed the size
(see the counterexample). -/
theorem c9_offset_invariant (S : Nat) (st : DLState) (ev : NetEvent) :
    ((downloadIterCli S st ev).request.isSome = true →
        (downloadIterCli S st ev).startPos < S)
    ∧ ((downloadIterCli S st ev).startPos + chunkLen (chunksOf ev) ≤ S →
        ∀ x ∈ (downloadIterCli S st ev).blockOffsets, x ≤ S) := by
  unfold downloadIterCli
  rcases hst : statPhaseCli S st with ⟨fs1, pos1, complete, d⟩
  simp only [afterStatCli]
  by_cases hc : complete = true
  · subst hc
    simp [breakIter]
  · rw [Bool.not_eq_true] at hc
    subst hc
    simp only [Bool.false_eq_true, if_false]
    by_cases hge : S ≤ pos1
    · simp [hge, breakIter]
    · have hlt : pos1 < S := by omega
      simp only [hge, if_false]
      cases ev <;>
        simp only [streamPhaseCli, chunksOf, Option.isSome_some, Option.isSome_none,
          List.not_mem_nil, chunkLen, List.map_nil, List.sum_nil] <;>
        try exact ⟨fun _ => hlt, by intro h x hx; cases hx⟩
      all_goals
        exact ⟨fun _ => hlt,
          fun h x hx => le_trans (offsetsAfterBlocks_le pos1 _ x hx) h⟩

/-- C9 witness: with expected size 2 and a compliant single-byte response
from offset 0, the start offset is below the size and every block offset
stays within it. -/
theorem c9_offset_invariant_witness :
    (downloadIterCli 2 ⟨none, 0, 0⟩ (.ok [[7]])).startPos < 2
    ∧ ∀ x ∈ (downloadIterCli 2 ⟨none, 0, 0⟩ (.ok [[7]])).blockOffsets, x ≤ 2 := by
  have h := c9_offset_invariant 2 ⟨none, 0, 0⟩ (.ok [[7]])
  exact ⟨h.1 (by decide), h.2 (by decide)⟩

/-- C7 counterexample: in the CLI variant, a successful probe whose
`Content-Length` is absent (or `0`) makes the invocation fail immediately
(`return False`, modelled as `none`) — there is no fallback ranged probe,
contradicting the claim that the invocation does not automatically fail. -/
theorem c7_probe_fallback_cex :
    probeCli none = none ∧ probeCli (some 0) = none := by
  decide

/-- C7 amended: when the size probe succeeds with HTTP success but the
server declares no size, only the interactive variant avoids failing: it
falls back to a ranged GET of the first ~1KB, parses the total from the
`Content-Range` header (e.g. `bytes 0-1023/12345` gives 12345), and
proceeds with size 0 (unknown) when the fallback fails or is unparsable;
the CLI variant instead aborts the invocation exactly when the declared
size is absent or zero. -/
theorem c7_probe_fallback (content_length : Option Nat) (cr : List Char)
    (n : Nat) :
    (probeCli content_length = none ↔ content_length.getD 0 = 0)
    ∧ probeInteractive content_length .fail = content_length.getD 0
    ∧ (content_length.getD 0 = 0 →
        probeInteractive content_length (.ok cr) =
          (parseContentRangeTotal cr).getD 0)
    ∧ probeInteractive (some (n + 1)) (.ok cr) = n + 1
    ∧ parseContentRangeTotal ("bytes 0-1023/12345".data) = some 12345 := by
  refine ⟨?_, ?_, ?_, by simp [probeInteractive], by decide⟩
  · unfold probeCli
    by_cases h : content_length.getD 0 = 0 <;> simp [h]
  · unfold probeInteractive
    by_cases h : content_length.getD 0 = 0 <;> simp [h]
  · intro h
    unfold probeInteractive
    rw [h]
    simp only [if_pos rfl]
    cases parseContentRangeTotal cr <;> rfl

/-- C7 witness: with `Content-Length: 0`, the interactive fallback parses
the total size 12345 out of `Content-Range: bytes 0-1023/12345`. -/
theorem c7_probe_fallback_witness :
    probeInteractive (some 0) (.ok ("bytes 0-1023/12345".data)) =
      (parseContentRangeTotal ("bytes 0-1023/12345".data)).getD 0 := by
  exact (c7_probe_fallback (some 0) ("bytes 0-1023/12345".data) 0).2.2.1 (by decide)

/-- C10: in the interactive variant with known expected size 2, an attempt
whose stream completes with a single byte fails the post-download integrity
check; the unconditional `break` then exits the loop with `success` still
`False`, and the function falls off its end: the invocation yields Python
`None` — neither `True` nor `False`. -/
theorem c10_failed_verify_returns_none :
    (downloadIterInteractive 2 ⟨none, 0, 0⟩ (.ok [[7]])).outcome = .exitNone
    ∧ runDownloadInteractive 2 ⟨none, 0, 0⟩ [.ok [[7]]] =
        .finished none ⟨some [7], 1, 1⟩
    ∧ outcomeReturn .exitNone = none := by
  decide
